import Mathlib

/-!
Verification of the multi-window Electron application (koji/electron-multi-windows).

This file gives a shallow embedding, in Lean, of the parts of the program that the
specification talks about:

* a small model of JavaScript runtime values (`JSValue`), with truthiness, `typeof`,
  property access, and `JSON.stringify`, which the program uses pervasively for
  validation and error formatting;
* the error classifier and bounded-retry state machine of
  `src/renderer/hooks/useErrorHandler.ts` (`createAppError`, `handleError`,
  `clearError`, `retry`);
* the response-validation and error-classification pipeline of
  `src/renderer/hooks/useDogApi.ts` (`fetchDogImage`);
* the Host-side `WindowManager` of `src/main/WindowManager.ts`
  (`createChildWindow`, `closeAllChildWindows`, `getActiveWindowCount`,
  `findWindowByType`), with the underlying Electron `BrowserWindow` handles modelled
  as records that carry the environment behaviour relevant to the code
  (destroyed flag, whether `isDestroyed`/`focus`/`close` throw);
* the `open-child-window` IPC handler of `src/main/main.ts`;
* the child preload bridge of `src/preload/childPreload.ts`
  (`getWindowType`, `getCurrentUrl`, `getWindowInfo`), with a model of the
  platform `URLSearchParams` parser.

Statefulness is embedded by explicit state passing; thrown JavaScript exceptions are
embedded with `Except` (state mutated before a throw is still returned, matching JS).
-/

namespace MultiWin

/-! ## JavaScript value model -/

/-- JavaScript numbers, as the program observes them: NaN, the two infinities, and
finite values (the program only ever compares against 0, so finite values are
modelled as integers). -/
inductive JSNum where
  | nan
  | posInf
  | negInf
  | int (n : Int)
deriving Repr, DecidableEq

mutual
/-- A JavaScript runtime value. Native `Error` objects are a separate constructor
(`instanceof Error` distinguishes them); `cause` is `vUndefined` when absent, as in
JS where reading a missing property yields `undefined`. Functions (`vFun`, carrying
only their name) are needed because a property lookup on a plain object literal
continues into `Object.prototype`, whose members are functions — the program meets
them when the `open-child-window` handler looks up an attacker-chosen key in
`CHILD_WINDOW_CONFIGS`. -/
inductive JSValue where
  | vUndefined
  | vNull
  | vBool (b : Bool)
  | vNum (n : JSNum)
  | vStr (s : String)
  | vObj (fields : JSFields)
  | vErr (name msg : String) (stack : Option String) (cause : JSValue)
  | vFun (name : String)
deriving Repr, DecidableEq

/-- Ordered own enumerable properties of a plain JavaScript object. -/
inductive JSFields where
  | fnil
  | fcons (key : String) (value : JSValue) (rest : JSFields)
deriving Repr, DecidableEq
end

/-- JavaScript truthiness of a number: `NaN` and `0` are falsy. -/
def JSNum.truthy : JSNum → Bool
  | .nan => false
  | .int n => n != 0
  | _ => true

/-- JavaScript truthiness: `undefined`, `null`, `false`, `0`, `NaN`, `""` are falsy,
everything else (all objects included) is truthy. -/
def JSValue.truthy : JSValue → Bool
  | .vUndefined => false
  | .vNull => false
  | .vBool b => b
  | .vNum n => n.truthy
  | .vStr s => s != ""
  | .vObj _ => true
  | .vErr _ _ _ _ => true
  | .vFun _ => true

/-- The JavaScript `typeof` operator (note `typeof null` is `"object"`, and native
errors are objects). -/
def JSValue.typeofStr : JSValue → String
  | .vUndefined => "undefined"
  | .vNull => "object"
  | .vBool _ => "boolean"
  | .vNum _ => "number"
  | .vStr _ => "string"
  | .vObj _ => "object"
  | .vErr _ _ _ _ => "object"
  | .vFun _ => "function"

/-- First binding of a key in an object field list (JS object property lookup). -/
def JSFields.lookup : JSFields → String → Option JSValue
  | .fnil, _ => none
  | .fcons k v rest, key => if k = key then some v else rest.lookup key

/-- JavaScript property read `v[k]`: a missing property reads as `undefined`;
native errors expose `name` and `message` (and `stack`/`cause` when set);
property reads on primitives yield `undefined` (the program never reads a
property of `null`/`undefined`, which would throw). -/
def getField : JSValue → String → JSValue
  | .vObj fs, k => (fs.lookup k).getD .vUndefined
  | .vErr n m st c, k =>
      if k = "name" then .vStr n
      else if k = "message" then .vStr m
      else if k = "stack" then (match st with | some s => .vStr s | none => .vUndefined)
      else if k = "cause" then c
      else .vUndefined
  | _, _ => .vUndefined

/-- JavaScript `a || b`. -/
def jsOr (a b : JSValue) : JSValue := if a.truthy then a else b

/-- Whether a value (already known to be a number) is `NaN`, as `isNaN` reports. -/
def jsIsNaN : JSValue → Bool
  | .vNum .nan => true
  | _ => false

/-- The JavaScript comparison `x <= 0` on a number (`NaN <= 0` is false,
`-Infinity <= 0` is true, `Infinity <= 0` is false). -/
def jsLeZero : JSValue → Bool
  | .vNum .nan => false
  | .vNum .posInf => false
  | .vNum .negInf => true
  | .vNum (.int n) => n ≤ 0
  | _ => false

mutual
/-- Model of `JSON.stringify`, as the program uses it for error messages: non-finite numbers
serialize as `null`, `undefined`-valued fields are omitted, a native error object
has no own enumerable properties. A top-level `undefined` — and likewise a
function — stringifies to no value; the program only interpolates the result
into a template string, where it reads "undefined". String escaping is not modelled (no value the program serializes
contains characters needing escapes beyond the quote-wrapping done here). -/
def jsonStringify : JSValue → String
  | .vUndefined => "undefined"
  | .vNull => "null"
  | .vBool b => if b then "true" else "false"
  | .vNum n => match n with
      | .nan => "null"
      | .posInf => "null"
      | .negInf => "null"
      | .int k => toString k
  | .vStr s => "\"" ++ s ++ "\""
  | .vErr _ _ _ _ => "\x7b\x7d"
  | .vFun _ => "undefined"
  | .vObj fs => "\x7b" ++ String.intercalate "," (jsonFields fs) ++ "\x7d"

/-- Serialized `"key":value` parts of an object, skipping `undefined` and
function values as `JSON.stringify` does. -/
def jsonFields : JSFields → List String
  | .fnil => []
  | .fcons k v rest =>
    match v with
    | .vUndefined => jsonFields rest
    | .vFun _ => jsonFields rest
    | _ => ("\"" ++ k ++ "\":" ++ jsonStringify v) :: jsonFields rest
end

/-- Whether `pat` occurs at the start of `s` (on character lists). -/
def prefixAt : List Char → List Char → Bool
  | [], _ => true
  | _ :: _, [] => false
  | a :: as, b :: bs => a = b && prefixAt as bs

/-- Whether `pat` occurs anywhere in `s` (on character lists). -/
def subAt (pat : List Char) : List Char → Bool
  | [] => pat.isEmpty
  | c :: rest => prefixAt pat (c :: rest) || subAt pat rest

/-- JavaScript `String.prototype.includes`: substring containment. -/
def containsStr (s pat : String) : Bool :=
  subAt pat.data s.data

/-! ## Error classifier and retry controller (`src/renderer/hooks/useErrorHandler.ts`) -/

/-- The normalized `AppError` record produced by `createAppError`. `code` and
`message` are `JSValue`s because the object branch copies whatever value the
`code`/`name`/`message` properties hold. -/
structure AppError where
  code : JSValue
  message : JSValue
  details : Option JSValue
  timestamp : String
  context : Option String
deriving Repr, DecidableEq

/-- The classifier `createAppError` from `useErrorHandler.ts` (lines 22-67). The current ISO
timestamp is passed in explicitly. Branch order follows the source:
`instanceof Error`, then `typeof === "string"`, then `error && typeof error ===
"object"` (among the remaining constructors only plain objects satisfy this:
`null` is falsy and nothing else has typeof "object"), then the fallback. -/
def createAppError (error : JSValue) (timestamp : String) (context : Option String) :
    AppError :=
  match error with
  | .vErr name msg stack cause =>
      { code := if name != "" then .vStr name else .vStr "UnknownError"
        message := .vStr msg
        details := some (.vObj (.fcons "stack"
            (match stack with | some s => .vStr s | none => .vUndefined)
            (.fcons "cause" cause .fnil)))
        timestamp := timestamp
        context := context }
  | .vStr s =>
      { code := .vStr "StringError"
        message := .vStr s
        details := none
        timestamp := timestamp
        context := context }
  | .vObj fs =>
      { code := jsOr (getField (.vObj fs) "code")
                  (jsOr (getField (.vObj fs) "name") (.vStr "ObjectError"))
        message := jsOr (getField (.vObj fs) "message")
                     (.vStr (jsonStringify (.vObj fs)))
        details := some (.vObj fs)
        timestamp := timestamp
        context := context }
  | v =>
      { code := .vStr "UnknownError"
        message := .vStr "An unknown error occurred"
        details := some v
        timestamp := timestamp
        context := context }

/-- The `ErrorState` owned by each `useErrorHandler` instance. `error` and
`lastRetryAt` are `none` when the corresponding fields are absent. -/
structure ErrorState where
  hasError : Bool
  error : Option AppError
  retryCount : Nat
  lastRetryAt : Option String
deriving Repr, DecidableEq

/-- The initial error state `{hasError: false, retryCount: 0}`. -/
def initialErrorState : ErrorState :=
  { hasError := false, error := none, retryCount := 0, lastRetryAt := none }

/-- The operation `handleError` (lines 69-92): classify, then set `hasError` with the classified
error, preserving `retryCount` and `lastRetryAt`. -/
def handleError (error : JSValue) (context : Option String) (timestamp : String)
    (st : ErrorState) : ErrorState :=
  { hasError := true
    error := some (createAppError error timestamp context)
    retryCount := st.retryCount
    lastRetryAt := st.lastRetryAt }

/-- The operation `clearError` (lines 94-99): unconditional reset to `{hasError: false,
retryCount: 0}` (dropping `error` and `lastRetryAt`). -/
def clearError (_st : ErrorState) : ErrorState := initialErrorState

/-- The operation `retry` (lines 101-137). The outcome of the retried operation is passed as
`opResult` (`ok` for a successful run, `error e` when the operation throws/rejects
with value `e`); `timestamp` is the stamp taken for `lastRetryAt`.
If the cap is reached the call only logs a warning and returns: no state change.
Otherwise the count is incremented and `lastRetryAt` stamped before the operation
runs; success then calls `clearError`, failure calls `handleError` with context
`"retry-operation"` on the incremented state (the count is not reset). -/
def retry (maxRetries : Nat) (timestamp : String) (opResult : Except JSValue Unit)
    (st : ErrorState) : ErrorState :=
  if st.retryCount ≥ maxRetries then
    st
  else
    let st1 := { st with retryCount := st.retryCount + 1, lastRetryAt := some timestamp }
    match opResult with
    | .ok _ => clearError st1
    | .error e => handleError e (some "retry-operation") timestamp st1

/-! ## Remote image fetch unit (`src/renderer/hooks/useDogApi.ts`) -/

/-- The `ApiErrorResponse` error-detail record. -/
structure ApiErrorResponse where
  status : Int
  statusText : String
  message : String
deriving Repr, DecidableEq

/-- A received HTTP response, as `fetchDogImage` observes it: `ok`/`status`/
`statusText`, the `content-type` header (`none` when the header is absent), and
the JSON-parsed body. -/
structure HttpResponse where
  ok : Bool
  status : Int
  statusText : String
  contentType : Option String
  body : JSValue
deriving Repr, DecidableEq

/-- The observable outcome of one `fetchDogImage` run: the stored data, the local
`error` flag set by `setError`, the recorded `errorDetails`, and the `AppError`
recorded into the composed error-handler state by `handleError` (if any). -/
structure FetchOutcome where
  data : Option JSValue
  errorFlag : Bool
  errorDetails : Option ApiErrorResponse
  handled : Option AppError
deriving Repr, DecidableEq

/-- The `catch` clause of `fetchDogImage` (lines 110-141): classify the thrown
value by shape. `edSoFar` is whatever `setErrorDetails` recorded inside the `try`
block before the throw (the timeout/network branches overwrite it, the general
branches keep it). Every path ends in `setError(true)`. -/
def fetchCatch (edSoFar : Option ApiErrorResponse) (err : JSValue) (timestamp : String) :
    FetchOutcome :=
  match err with
  | .vErr name msg stack cause =>
      if name = "AbortError" then
        { data := none, errorFlag := true
          errorDetails := some ⟨408, "Request Timeout", "Request timed out after 10 seconds"⟩
          handled := some (createAppError (.vErr "Error" "Request timed out" none .vUndefined)
            timestamp (some "useDogApi-timeout")) }
      else if containsStr msg "Failed to fetch" then
        { data := none, errorFlag := true
          errorDetails := some ⟨0, "Network Error", "Network connection failed"⟩
          handled := some (createAppError (.vErr "Error" "Network connection failed" none .vUndefined)
            timestamp (some "useDogApi-network")) }
      else
        { data := none, errorFlag := true
          errorDetails := edSoFar
          handled := some (createAppError (.vErr name msg stack cause)
            timestamp (some "useDogApi-general")) }
  | v =>
      { data := none, errorFlag := true
        errorDetails := edSoFar
        handled := some (createAppError v timestamp (some "useDogApi-unknown")) }

/-- Whether the `content-type` header passes `contentType &&
contentType.includes("application/json")`. -/
def contentTypeOk : Option String → Bool
  | none => false
  | some ct => ct != "" && containsStr ct "application/json"

/-- One run of `fetchDogImage` (lines 30-145) over a received response, starting
from a cleared state. Validation order follows the source: HTTP status, content
type, body is an object, `message` field, `status` field; each failure throws a
native `Error` that the `catch` clause then classifies. The generic errors thrown
here have the default name "Error" and no stack/cause recorded in the model. -/
def fetchDogImage (r : HttpResponse) (timestamp : String) : FetchOutcome :=
  if ¬ r.ok then
    let ed : ApiErrorResponse :=
      ⟨r.status, r.statusText, "HTTP " ++ toString r.status ++ ": " ++ r.statusText⟩
    fetchCatch (some ed)
      (.vErr "Error" ("HTTP error! status: " ++ toString r.status ++ " - " ++ r.statusText)
        none .vUndefined) timestamp
  else if ¬ contentTypeOk r.contentType then
    let ed : ApiErrorResponse := ⟨r.status, r.statusText, "Invalid response content type"⟩
    fetchCatch (some ed) (.vErr "Error" "Invalid response content type" none .vUndefined)
      timestamp
  else if ¬ (r.body.truthy && r.body.typeofStr = "object") then
    fetchCatch none (.vErr "Error" "Invalid response format: not an object" none .vUndefined)
      timestamp
  else if ¬ ((getField r.body "message").truthy
             && (getField r.body "message").typeofStr = "string") then
    fetchCatch none
      (.vErr "Error" "Invalid response format: missing or invalid message field" none .vUndefined)
      timestamp
  else if ¬ ((getField r.body "status").truthy
             && (getField r.body "status").typeofStr = "string") then
    fetchCatch none
      (.vErr "Error" "Invalid response format: missing or invalid status field" none .vUndefined)
      timestamp
  else
    { data := some r.body, errorFlag := false, errorDetails := none, handled := none }

/-! ## Window manager (`src/main/WindowManager.ts`) -/

/-- An Electron `BrowserWindow` handle as the `WindowManager` observes it.
`nativeId` is the numeric `BrowserWindow.id`. `destroyed` is what `isDestroyed()`
reports when it does not throw; the three `…Throws` flags model the environment
behaviour of calling `isDestroyed()`/`focus()`/`close()` on the handle (a native
call on a reclaimed handle can throw). `windowType`/`windowId` are the ad-hoc tags
the manager stores on the handle at creation (`none` before tagging). -/
structure BWindow where
  nativeId : Nat
  destroyed : Bool
  isDestroyedThrows : Bool
  focusThrows : Bool
  closeThrows : Bool
  windowType : Option String
  windowId : Option String
  width : JSNum
  height : JSNum
deriving Repr, DecidableEq

/-- The `WindowManager` state: the `childWindows` map (insertion-ordered, as a JS
`Map` iterates), the monotonic `windowCounter`, and the environment allocator for
native `BrowserWindow.id` values. -/
structure WindowManager where
  childWindows : List (String × BWindow)
  windowCounter : Nat
  nativeCounter : Nat
deriving Repr, DecidableEq

/-- A fresh manager as built by the Host bootstrap. -/
def emptyManager : WindowManager :=
  { childWindows := [], windowCounter := 0, nativeCounter := 1 }

/-- JS `Map.set`: replace the value under an existing key, else append. -/
def mapSet (l : List (String × BWindow)) (k : String) (v : BWindow) :
    List (String × BWindow) :=
  if l.any (fun e => e.1 = k) then
    l.map (fun e => if e.1 = k then (k, v) else e)
  else
    l ++ [(k, v)]

/-- JS `Map.delete`: remove the entry under a key (a key occurs at most once in a
real `Map`; this removes the first occurrence). -/
def mapDelete (l : List (String × BWindow)) (k : String) : List (String × BWindow) :=
  l.eraseP (fun e => e.1 = k)

/-- The lookup `findWindowByType` (lines 185-194): first tracked window that is not destroyed
and is tagged with the requested type. The `isDestroyed()` call is not guarded
there, so a handle whose liveness check throws makes the whole walk throw. -/
def findWindowByType (ty : String) : List (String × BWindow) → Except String (Option BWindow)
  | [] => .ok none
  | (_, w) :: rest =>
    if w.isDestroyedThrows then .error "Object has been destroyed"
    else if ¬ w.destroyed && w.windowType = some ty then .ok (some w)
    else findWindowByType ty rest

/-- Result of one `createChildWindow` call: a newly constructed window, the reused
existing window of the same type (dedup branch), or a thrown error message. -/
inductive CreateResult where
  | created (w : BWindow)
  | reused (w : BWindow)
  | threw (msg : String)
deriving Repr, DecidableEq

/-- The dimension-validation checks of `createChildWindow` (lines 25-39), split
out so theorems can name them: the first `Invalid dimensions: <json>` guard
(missing/non-number/NaN) and the positivity guard. -/
def dimsShapeBad (dims : JSValue) : Bool :=
  ¬ dims.truthy
  || (getField dims "width").typeofStr != "number"
  || (getField dims "height").typeofStr != "number"
  || jsIsNaN (getField dims "width")
  || jsIsNaN (getField dims "height")

/-- The positivity guard `width <= 0 || height <= 0` (line 35). -/
def dimsNonPositive (dims : JSValue) : Bool :=
  jsLeZero (getField dims "width") || jsLeZero (getField dims "height")

/-- The number a dimension field holds (only used after `dimsShapeBad` ruled out
non-numbers). -/
def numOf : JSValue → JSNum
  | .vNum n => n
  | _ => .nan

/-- The `BrowserWindow` constructed in `createChildWindow` (lines 58-81), already
tagged with its type and generated id (`m1` is the manager state after the counter
pre-increment, so the generated id suffix is `m1.windowCounter`). -/
def newChildWindow (ty : String) (dims : JSValue) (m1 : WindowManager) : BWindow :=
  { nativeId := m1.nativeCounter
    destroyed := false
    isDestroyedThrows := false
    focusThrows := false
    closeThrows := false
    windowType := some ty
    windowId := some (ty ++ "-" ++ toString m1.windowCounter)
    width := numOf (getField dims "width")
    height := numOf (getField dims "height") }

/-- The construction branch of `createChildWindow`: build the window, record it in
the tracking map under the generated id, return it. -/
def constructChildWindow (ty : String) (dims : JSValue) (m1 : WindowManager) :
    CreateResult × WindowManager :=
  (.created (newChildWindow ty dims m1),
    { m1 with
        nativeCounter := m1.nativeCounter + 1
        childWindows := mapSet m1.childWindows (ty ++ "-" ++ toString m1.windowCounter)
          (newChildWindow ty dims m1) })

/-- The operation `createChildWindow` (lines 12-120). The counter is pre-incremented when the id
is generated, before any validation, so every call — including ones that throw or
take the dedup branch — bumps it exactly once. Validation: type, then dimension
shape, then positivity. Then the dedup lookup; a live window of the same type is
focused and returned (a focus throw is caught and falls through to construction).
Construction records the new handle under the generated id and tags it. Exceptions
propagate to the caller (the outer catch only logs and rethrows). -/
def createChildWindow (ty : String) (dims : JSValue) (m : WindowManager) :
    CreateResult × WindowManager :=
  -- `const windowId = `${type}-${++this.windowCounter}``: the id (with suffix
  -- `m1.windowCounter`) is generated before validation; `newChildWindow` rebuilds it.
  let m1 := { m with windowCounter := m.windowCounter + 1 }
  if ty = "" then
    (.threw ("Invalid window type: " ++ ty), m1)
  else if dimsShapeBad dims then
    (.threw ("Invalid dimensions: " ++ jsonStringify dims), m1)
  else if dimsNonPositive dims then
    (.threw "Invalid dimensions: width and height must be positive numbers", m1)
  else
    match findWindowByType ty m1.childWindows with
    | .error e => (.threw e, m1)
    | .ok found =>
      match found with
      | some w =>
        -- `existingWindow && !existingWindow.isDestroyed()`: a second liveness call
        if w.isDestroyedThrows then (.threw "Object has been destroyed", m1)
        else if ¬ w.destroyed then
          if ¬ w.focusThrows then (.reused w, m1)
          else constructChildWindow ty dims m1
        else constructChildWindow ty dims m1
      | none => constructChildWindow ty dims m1

/-- The counting sweep of `closeAllChildWindows` (lines 132-144): per entry, the
guarded `close()`; a throw from `isDestroyed()` or `close()` is caught and the
entry is not counted; an already-destroyed entry is skipped without counting. -/
def closeSweep : List (String × BWindow) → Nat
  | [] => 0
  | (_, w) :: rest =>
    (if w.isDestroyedThrows then 0
     else if w.destroyed then 0
     else if w.closeThrows then 0
     else 1) + closeSweep rest

/-- The operation `closeAllChildWindows` (lines 126-151): sweep a snapshot of the tracked
entries, then clear the map unconditionally; return the count of successful
closes. -/
def closeAllChildWindows (m : WindowManager) : Nat × WindowManager :=
  (closeSweep m.childWindows, { m with childWindows := [] })

/-- The walk of `getActiveWindowCount` (lines 160-171): count live entries; an
entry that is destroyed, or whose liveness check throws, goes on the
`destroyedWindows` cleanup list. -/
def countSweep : List (String × BWindow) → Nat × List String
  | [] => (0, [])
  | (wid, w) :: rest =>
    let r := countSweep rest
    if w.isDestroyedThrows then (r.1, wid :: r.2)
    else if ¬ w.destroyed then (r.1 + 1, r.2)
    else (r.1, wid :: r.2)

/-- The operation `getActiveWindowCount` (lines 156-180): count, then delete every entry found
destroyed from the tracking map. -/
def getActiveWindowCount (m : WindowManager) : Nat × WindowManager :=
  let r := countSweep m.childWindows
  (r.1, { m with childWindows := r.2.foldl mapDelete m.childWindows })

/-! ## Host message router: the `open-child-window` handler (`src/main/main.ts`) -/

/-- The standard members a property read on a plain object literal finds on
`Object.prototype` when the key is not an own property: the methods (functions),
with the `__proto__` accessor handled separately since its value is the prototype
object itself. -/
def objectProtoKeys : List String :=
  ["constructor", "hasOwnProperty", "isPrototypeOf", "propertyIsEnumerable",
   "toLocaleString", "toString", "valueOf",
   "__defineGetter__", "__defineSetter__", "__lookupGetter__", "__lookupSetter__"]

/-- The `CHILD_WINDOW_CONFIGS` table (lines 122-126), as the runtime lookup
`CHILD_WINDOW_CONFIGS[type]` sees it. The object is a plain literal, so the
property read walks the prototype chain: the three own entries first, then the
`Object.prototype` members — a method key yields the inherited function, and
`__proto__` yields the prototype object (no own enumerable properties) — and
only a key found nowhere reads as `undefined` (`none`). -/
def CHILD_WINDOW_CONFIGS (key : String) : Option JSValue :=
  if key = "child1" then
    some (.vObj (.fcons "width" (.vNum (.int 300))
      (.fcons "height" (.vNum (.int 300)) .fnil)))
  else if key = "child2" then
    some (.vObj (.fcons "width" (.vNum (.int 500))
      (.fcons "height" (.vNum (.int 300)) .fnil)))
  else if key = "child3" then
    some (.vObj (.fcons "width" (.vNum (.int 250))
      (.fcons "height" (.vNum (.int 200)) .fnil)))
  else if key ∈ objectProtoKeys then some (.vFun key)
  else if key = "__proto__" then some (.vObj .fnil)
  else none

/-- The IPC response envelope returned by the `open-child-window` handler. -/
structure IpcResponse where
  success : Bool
  error : Option String
  windowId : Option Nat
deriving Repr, DecidableEq

/-- The string a `vStr` holds (only used under a `typeof === "string"` guard). -/
def JSValue.asString : JSValue → String
  | .vStr s => s
  | _ => ""

/-- The body of the `open-child-window` handler inside its `try` (lines 158-196):
each validation failure is a thrown error, carried here in `Except`; the manager
state is returned alongside since mutations before a throw persist. The manager
argument is `none` when the module-scope `windowManager` has not been set. -/
def openChildWindowSteps (data : JSValue) (wm : Option WindowManager) :
    Except String Nat × Option WindowManager :=
  if ¬ data.truthy || data.typeofStr != "object" then
    (.error "Invalid request data: expected object with type property", wm)
  else
    let ty := getField data "type"
    if ¬ ty.truthy || ty.typeofStr != "string" then
      (.error "Invalid child window type: type must be a non-empty string", wm)
    else
      let tyStr := ty.asString
      match CHILD_WINDOW_CONFIGS tyStr with
      | none =>
        (.error ("Invalid child window type: " ++ tyStr
          ++ ". Valid types are: child1, child2, child3"), wm)
      | some dims =>
        match wm with
        | none => (.error "Window manager not initialized", none)
        | some m =>
          match createChildWindow tyStr dims m with
          | (.created w, m2) => (.ok w.nativeId, some m2)
          | (.reused w, m2) => (.ok w.nativeId, some m2)
          | (.threw msg, m2) => (.error msg, some m2)

/-- The `open-child-window` handler (lines 155-207): run the steps, catching any
thrown error into a `{success: false, error}` envelope; a successful run returns
`{success: true, windowId: childWindow.id}`. -/
def openChildWindowHandler (data : JSValue) (wm : Option WindowManager) :
    IpcResponse × Option WindowManager :=
  match openChildWindowSteps data wm with
  | (.ok wid, wm2) => ({ success := true, error := none, windowId := some wid }, wm2)
  | (.error msg, wm2) => ({ success := false, error := some msg, windowId := none }, wm2)

/-! ## Child preload bridge (`src/preload/childPreload.ts`) -/

/-- How the child window can observe its own address: reading
`globalThis.location` can throw, the location can be absent (reads as
`undefined`), or it is present with `search` and `href` strings. -/
inductive LocAccess where
  | throws
  | absent
  | present (search : String) (href : String)
deriving Repr, DecidableEq

/-- One percent-escape decode step used by `URLSearchParams`: hex digit value. -/
def hexVal (c : Char) : Option Nat :=
  if '0' ≤ c ∧ c ≤ '9' then some (c.toNat - '0'.toNat)
  else if 'a' ≤ c ∧ c ≤ 'f' then some (c.toNat - 'a'.toNat + 10)
  else if 'A' ≤ c ∧ c ≤ 'F' then some (c.toNat - 'A'.toNat + 10)
  else none

/-- Percent/plus decoding applied by the platform `URLSearchParams` to keys and
values: `+` reads as a space, `%hh` as the byte `hh` (multi-byte UTF-8 sequences
are not recombined in this model; the application only routes on plain ASCII
parameter values), and a malformed escape is kept verbatim. -/
def urlDecode : List Char → List Char
  | [] => []
  | c :: rest =>
    if c = '+' then ' ' :: urlDecode rest
    else if c = '%' then
      match rest with
      | h1 :: h2 :: rest2 =>
        match hexVal h1, hexVal h2 with
        | some a, some b => Char.ofNat (16 * a + b) :: urlDecode rest2
        | _, _ => '%' :: urlDecode (h1 :: h2 :: rest2)
      | [h1] => '%' :: urlDecode [h1]
      | [] => '%' :: urlDecode []
    else c :: urlDecode rest

/-- Strip the single leading `?` that `URLSearchParams` ignores. -/
def stripQm : List Char → List Char
  | '?' :: rest => rest
  | l => l

/-- Split a query string into its `&`-separated segments. -/
def splitSegs : List Char → List (List Char)
  | [] => [[]]
  | c :: rest =>
    if c = '&' then [] :: splitSegs rest
    else
      match splitSegs rest with
      | [] => [[c]]
      | seg :: segs => (c :: seg) :: segs

/-- Split one segment at its first `=` (a segment with no `=` is a key with an
empty value). -/
def splitPair : List Char → List Char × List Char
  | [] => ([], [])
  | c :: rest =>
    if c = '=' then ([], rest)
    else (c :: (splitPair rest).1, (splitPair rest).2)

/-- The platform `new URLSearchParams(search)`: strip one leading `?`, split on
`&`, ignore empty segments, split each segment at its first `=`, decode both
sides, in order. -/
def parseSearchParams (search : String) : List (String × String) :=
  ((splitSegs (stripQm search.data)).filter (fun seg => seg ≠ [])).map
    (fun seg => (⟨urlDecode (splitPair seg).1⟩, ⟨urlDecode (splitPair seg).2⟩))

/-- Model of `URLSearchParams.get(name)`: the first value bound to the name, else null
(`none`). -/
def searchParamsGet (search name : String) : Option String :=
  ((parseSearchParams search).find? (fun p => p.1 = name)).map (·.2)

/-- The helper `getWindowType` (childPreload lines 4-12): read `location?.search || ""` and
take the raw `type` query parameter; any throw yields null (`none`). -/
def getWindowType : LocAccess → Option String
  | .throws => none
  | .absent => searchParamsGet "" "type"
  | .present search _ => searchParamsGet search "type"

/-- The helper `getCurrentUrl` (childPreload lines 15-21): `location?.href || "unknown"`,
with any throw caught into `"unknown"`. -/
def getCurrentUrl : LocAccess → String
  | .throws => "unknown"
  | .absent => "unknown"
  | .present _ href => if href = "" then "unknown" else href

/-- The record returned by the bridge `getWindowInfo` (childPreload lines 49-55). -/
structure WindowInfo where
  type : Option String
  url : String
  timestamp : String
deriving Repr, DecidableEq

/-- The bridge method `getWindowInfo`: `{type: getWindowType(), url: getCurrentUrl(), timestamp}`. -/
def getWindowInfo (loc : LocAccess) (timestamp : String) : WindowInfo :=
  { type := getWindowType loc, url := getCurrentUrl loc, timestamp := timestamp }

/-! ## Shared lemmas -/

/-- A tracked entry that a close sweep counts: liveness check does not throw, the
window is not destroyed, and `close()` does not throw. -/
def closeableEntry (e : String × BWindow) : Bool :=
  !e.2.isDestroyedThrows && !e.2.destroyed && !e.2.closeThrows

/-- A tracked entry that the counting walk counts as active. -/
def liveEntry (e : String × BWindow) : Bool :=
  !e.2.isDestroyedThrows && !e.2.destroyed

lemma closeSweep_eq_filter (l : List (String × BWindow)) :
    closeSweep l = (l.filter closeableEntry).length := by
  induction l with
  | nil => rfl
  | cons e rest ih =>
    obtain ⟨wid, w⟩ := e
    by_cases h1 : w.isDestroyedThrows <;> by_cases h2 : w.destroyed <;>
      by_cases h3 : w.closeThrows <;>
      (simp [closeSweep, closeableEntry, h1, h2, h3, ih, List.filter]; try omega)

lemma countSweep_fst (l : List (String × BWindow)) :
    (countSweep l).1 = (l.filter liveEntry).length := by
  induction l with
  | nil => rfl
  | cons e rest ih =>
    obtain ⟨wid, w⟩ := e
    by_cases h1 : w.isDestroyedThrows <;> by_cases h2 : w.destroyed <;>
      simp [countSweep, liveEntry, h1, h2, ih, List.filter]

lemma countSweep_snd_subset (l : List (String × BWindow)) :
    ∀ k ∈ (countSweep l).2, k ∈ l.map Prod.fst := by
  induction l with
  | nil => simp [countSweep]
  | cons e rest ih =>
    obtain ⟨wid, w⟩ := e
    intro k hk
    simp only [countSweep] at hk
    split_ifs at hk with h1 h2 <;>
      simp only [List.map_cons, List.mem_cons] <;>
      first
        | exact Or.inr (ih k hk)
        | (rcases List.mem_cons.mp hk with rfl | hk2
           · exact Or.inl rfl
           · exact Or.inr (ih k hk2))

lemma mapDelete_cons_ne (wid k : String) (w : BWindow) (l : List (String × BWindow))
    (h : wid ≠ k) :
    mapDelete ((wid, w) :: l) k = (wid, w) :: mapDelete l k := by
  simp [mapDelete, List.eraseP_cons, h]

lemma foldl_mapDelete_cons (ds : List String) (wid : String) (w : BWindow)
    (l : List (String × BWindow)) (h : ∀ k ∈ ds, k ≠ wid) :
    ds.foldl mapDelete ((wid, w) :: l) = (wid, w) :: ds.foldl mapDelete l := by
  induction ds generalizing l with
  | nil => rfl
  | cons d ds ih =>
    have hd : wid ≠ d := fun he => (h d (by simp)) he.symm
    simp only [List.foldl_cons, mapDelete_cons_ne wid d w l hd]
    exact ih (mapDelete l d) (fun k hk => h k (by simp [hk]))

lemma countSweep_cleanup (l : List (String × BWindow))
    (h : (l.map Prod.fst).Nodup) :
    (countSweep l).2.foldl mapDelete l = l.filter liveEntry := by
  induction l with
  | nil => rfl
  | cons e rest ih =>
    obtain ⟨wid, w⟩ := e
    simp only [List.map_cons, List.nodup_cons] at h
    obtain ⟨hnotin, hrest⟩ := h
    by_cases h1 : w.isDestroyedThrows
    · have : countSweep ((wid, w) :: rest) = ((countSweep rest).1, wid :: (countSweep rest).2) := by
        simp [countSweep, h1]
      rw [this]
      have hdel : mapDelete ((wid, w) :: rest) wid = rest := by
        simp [mapDelete, List.eraseP_cons]
      simp only [List.foldl_cons, hdel]
      rw [ih hrest]
      simp [liveEntry, h1, List.filter]
    · by_cases h2 : w.destroyed
      · have : countSweep ((wid, w) :: rest) = ((countSweep rest).1, wid :: (countSweep rest).2) := by
          simp [countSweep, h1, h2]
        rw [this]
        have hdel : mapDelete ((wid, w) :: rest) wid = rest := by
          simp [mapDelete, List.eraseP_cons]
        simp only [List.foldl_cons, hdel]
        rw [ih hrest]
        simp [liveEntry, h1, h2, List.filter]
      · have : countSweep ((wid, w) :: rest) = ((countSweep rest).1 + 1, (countSweep rest).2) := by
          simp [countSweep, h1, h2]
        rw [this]
        have hne : ∀ k ∈ (countSweep rest).2, k ≠ wid := by
          intro k hk he
          exact hnotin (he ▸ countSweep_snd_subset rest k hk)
        rw [foldl_mapDelete_cons _ _ _ _ hne, ih hrest]
        simp [liveEntry, h1, h2, List.filter]

lemma countSweep_all_live (l : List (String × BWindow))
    (h : ∀ e ∈ l, liveEntry e = true) :
    countSweep l = (l.length, []) := by
  induction l with
  | nil => rfl
  | cons e rest ih =>
    obtain ⟨wid, w⟩ := e
    have he : liveEntry (wid, w) = true := h _ (by simp)
    simp only [liveEntry, Bool.and_eq_true, Bool.not_eq_true'] at he
    simp [countSweep, he.1, he.2, ih (fun x hx => h x (by simp [hx]))]

/-! ## Claim theorems -/

/-- C4. For every state of the tracked-window registry, `closeAllChildWindows`
returns exactly the number of windows on which close succeeded: not-destroyed
windows whose close does not throw are counted, already-destroyed windows are
skipped without counting, a window whose liveness check or close call throws is
not counted, the registry is cleared unconditionally afterward, and with zero
tracked windows the result is 0. -/
theorem closeAllChildWindows_correct (m : WindowManager) :
    (closeAllChildWindows m).1 = (m.childWindows.filter closeableEntry).length
  ∧ (closeAllChildWindows m).2.childWindows = []
  ∧ (closeAllChildWindows { m with childWindows := [] }).1 = 0 := by
  refine ⟨?_, rfl, rfl⟩
  exact closeSweep_eq_filter m.childWindows

/-- C5. For every registry state (with the keys distinct, as they are in a JS
`Map`), `getActiveWindowCount` returns the number of tracked windows that are not
destroyed — a window whose liveness check throws is treated as destroyed — and
removes every entry found destroyed from the registry, so an immediately repeated
call returns the same count and finds no further destroyed entries to clean up
(the registry is left unchanged by the second call). -/
theorem getActiveWindowCount_correct (m : WindowManager)
    (h : (m.childWindows.map Prod.fst).Nodup) :
    (getActiveWindowCount m).1 = (m.childWindows.filter liveEntry).length
  ∧ (getActiveWindowCount m).2.childWindows = m.childWindows.filter liveEntry
  ∧ (getActiveWindowCount (getActiveWindowCount m).2).1 = (getActiveWindowCount m).1
  ∧ (getActiveWindowCount (getActiveWindowCount m).2).2.childWindows
      = (getActiveWindowCount m).2.childWindows := by
  have hfst : (getActiveWindowCount m).1 = (m.childWindows.filter liveEntry).length :=
    countSweep_fst m.childWindows
  have hsnd : (getActiveWindowCount m).2.childWindows = m.childWindows.filter liveEntry :=
    countSweep_cleanup m.childWindows h
  have hall : ∀ e ∈ (getActiveWindowCount m).2.childWindows, liveEntry e = true := by
    rw [hsnd]
    intro e he
    exact (List.mem_filter.mp he).2
  have hsweep : countSweep (getActiveWindowCount m).2.childWindows
      = ((getActiveWindowCount m).2.childWindows.length, []) :=
    countSweep_all_live _ hall
  refine ⟨hfst, hsnd, ?_, ?_⟩
  · show (countSweep (getActiveWindowCount m).2.childWindows).1 = _
    rw [hsweep, hfst, hsnd]
  · show ((countSweep (getActiveWindowCount m).2.childWindows).2.foldl mapDelete
      (getActiveWindowCount m).2.childWindows) = _
    rw [hsweep]
    rfl

/-- C5 witness: the theorem applied to a concrete three-entry registry (one live
window, one destroyed, one whose liveness check throws): the count is the number
of live entries, namely 1. -/
theorem getActiveWindowCount_correct_witness :
    (([("a", ⟨1, false, false, false, false, some "child1", some "a", .int 300, .int 300⟩),
       ("b", ⟨2, true, false, false, false, some "child2", some "b", .int 500, .int 300⟩),
       ("c", ⟨3, false, true, false, false, some "child3", some "c", .int 250, .int 200⟩)]
         : List (String × BWindow)).map Prod.fst).Nodup
  ∧ (getActiveWindowCount
      { childWindows :=
          [("a", ⟨1, false, false, false, false, some "child1", some "a", .int 300, .int 300⟩),
           ("b", ⟨2, true, false, false, false, some "child2", some "b", .int 500, .int 300⟩),
           ("c", ⟨3, false, true, false, false, some "child3", some "c", .int 250, .int 200⟩)],
        windowCounter := 3, nativeCounter := 4 }).1
      = (([("a", ⟨1, false, false, false, false, some "child1", some "a", .int 300, .int 300⟩),
          ("b", ⟨2, true, false, false, false, some "child2", some "b", .int 500, .int 300⟩),
          ("c", ⟨3, false, true, false, false, some "child3", some "c", .int 250, .int 200⟩)]
            : List (String × BWindow)).filter liveEntry).length := by
  refine ⟨by decide, ?_⟩
  exact (getActiveWindowCount_correct
    { childWindows :=
        [("a", ⟨1, false, false, false, false, some "child1", some "a", .int 300, .int 300⟩),
         ("b", ⟨2, true, false, false, false, some "child2", some "b", .int 500, .int 300⟩),
         ("c", ⟨3, false, true, false, false, some "child3", some "c", .int 250, .int 200⟩)],
      windowCounter := 3, nativeCounter := 4 } (by decide)).1

lemma createChildWindow_shapeBad (ty : String) (dims : JSValue) (m : WindowManager)
    (hty : ty ≠ "") (hd : dimsShapeBad dims = true) :
    createChildWindow ty dims m
      = (.threw ("Invalid dimensions: " ++ jsonStringify dims),
         { m with windowCounter := m.windowCounter + 1 }) := by
  simp [createChildWindow, hty, hd]

lemma createChildWindow_nonPositive (ty : String) (dims : JSValue) (m : WindowManager)
    (hty : ty ≠ "") (hd : dimsShapeBad dims = false) (hp : dimsNonPositive dims = true) :
    createChildWindow ty dims m
      = (.threw "Invalid dimensions: width and height must be positive numbers",
         { m with windowCounter := m.windowCounter + 1 }) := by
  simp [createChildWindow, hty, hd, hp]

lemma findWindowByType_ok_some (ty : String) (l : List (String × BWindow)) (w : BWindow)
    (h : findWindowByType ty l = .ok (some w)) :
    w.isDestroyedThrows = false ∧ w.destroyed = false ∧ w.windowType = some ty := by
  induction l with
  | nil => simp [findWindowByType] at h
  | cons e rest ih =>
    obtain ⟨wid, we⟩ := e
    simp only [findWindowByType] at h
    split_ifs at h with h1 h2
    · simp only [Except.ok.injEq, Option.some.injEq] at h
      subst h
      simp only [Bool.and_eq_true, decide_eq_true_eq] at h2
      exact ⟨by simpa using h1, by simpa using h2.1, h2.2⟩
    · exact ih h

lemma findWindowByType_none_of_destroyed (ty : String) (l : List (String × BWindow))
    (hthr : ∀ e ∈ l, e.2.isDestroyedThrows = false)
    (hdes : ∀ e ∈ l, e.2.windowType = some ty → e.2.destroyed = true) :
    findWindowByType ty l = .ok none := by
  induction l with
  | nil => rfl
  | cons e rest ih =>
    obtain ⟨wid, we⟩ := e
    have h1 : we.isDestroyedThrows = false := hthr (wid, we) (by simp)
    have htail : findWindowByType ty rest = .ok none :=
      ih (fun x hx => hthr x (by simp [hx])) (fun x hx => hdes x (by simp [hx]))
    by_cases hw : we.windowType = some ty
    · have hd2 : we.destroyed = true := hdes (wid, we) (by simp) hw
      simp [findWindowByType, h1, hd2, hw, htail]
    · simp [findWindowByType, h1, hw, htail]

lemma findWindowByType_ok_of_noThrow (ty : String) (l : List (String × BWindow))
    (hthr : ∀ e ∈ l, e.2.isDestroyedThrows = false) :
    ∃ o, findWindowByType ty l = .ok o := by
  induction l with
  | nil => exact ⟨none, rfl⟩
  | cons e rest ih =>
    obtain ⟨wid, we⟩ := e
    have h1 : we.isDestroyedThrows = false := hthr (wid, we) (by simp)
    obtain ⟨o, ho⟩ := ih (fun x hx => hthr x (by simp [hx]))
    by_cases hd2 : we.destroyed = true
    · exact ⟨o, by simp [findWindowByType, h1, hd2, ho]⟩
    · have hd3 : we.destroyed = false := by simpa using hd2
      by_cases hw : we.windowType = some ty
      · exact ⟨some we, by simp [findWindowByType, h1, hd3, hw]⟩
      · exact ⟨o, by simp [findWindowByType, h1, hd3, hw, ho]⟩

/-- C3. For every kind and valid dimensions: a `createChildWindow` call while the
registry holds a tracked, not-destroyed window tagged with that kind (the dedup
lookup finds it) focuses and returns that same existing handle — no new window is
constructed, the registry is unchanged; if every tracked window of that kind
reports itself destroyed, a new window is constructed instead; and if the focus
attempt on the live existing window throws, the call falls through and constructs
a new window rather than failing. -/
theorem createChildWindow_dedup (ty : String) (dims : JSValue) (m : WindowManager)
    (hty : ty ≠ "") (hd : dimsShapeBad dims = false) (hp : dimsNonPositive dims = false) :
    (∀ w, findWindowByType ty m.childWindows = .ok (some w) → w.focusThrows = false →
        createChildWindow ty dims m
          = (.reused w, { m with windowCounter := m.windowCounter + 1 }))
  ∧ ((∀ e ∈ m.childWindows, e.2.isDestroyedThrows = false) →
     (∀ e ∈ m.childWindows, e.2.windowType = some ty → e.2.destroyed = true) →
        (createChildWindow ty dims m).1
          = .created (newChildWindow ty dims { m with windowCounter := m.windowCounter + 1 }))
  ∧ (∀ w, findWindowByType ty m.childWindows = .ok (some w) → w.focusThrows = true →
        (createChildWindow ty dims m).1
          = .created (newChildWindow ty dims { m with windowCounter := m.windowCounter + 1 })) := by
  refine ⟨?_, ?_, ?_⟩
  · intro w hfind hfocus
    obtain ⟨h1, h2, _⟩ := findWindowByType_ok_some ty m.childWindows w hfind
    simp [createChildWindow, hty, hd, hp, hfind, h1, h2, hfocus]
  · intro hthr hdes
    have hfind := findWindowByType_none_of_destroyed ty m.childWindows hthr hdes
    simp [createChildWindow, hty, hd, hp, hfind, constructChildWindow]
  · intro w hfind hfocus
    obtain ⟨h1, h2, _⟩ := findWindowByType_ok_some ty m.childWindows w hfind
    simp [createChildWindow, hty, hd, hp, hfind, h1, h2, hfocus, constructChildWindow]

/-- C3 witness: a registry holding one live `child1` window: the second
`createChildWindow("child1", 300x300)` call returns that same handle and leaves
the registry unchanged; with the window marked destroyed instead, a fresh window
is constructed. -/
theorem createChildWindow_dedup_witness :
    ("child1" : String) ≠ ""
  ∧ dimsShapeBad (.vObj (.fcons "width" (.vNum (.int 300))
      (.fcons "height" (.vNum (.int 300)) .fnil))) = false
  ∧ dimsNonPositive (.vObj (.fcons "width" (.vNum (.int 300))
      (.fcons "height" (.vNum (.int 300)) .fnil))) = false
  ∧ findWindowByType "child1"
      [("child1-1", ⟨1, false, false, false, false, some "child1", some "child1-1",
        .int 300, .int 300⟩)]
      = .ok (some ⟨1, false, false, false, false, some "child1", some "child1-1",
        .int 300, .int 300⟩)
  ∧ createChildWindow "child1"
      (.vObj (.fcons "width" (.vNum (.int 300)) (.fcons "height" (.vNum (.int 300)) .fnil)))
      { childWindows := [("child1-1", ⟨1, false, false, false, false, some "child1",
          some "child1-1", .int 300, .int 300⟩)],
        windowCounter := 1, nativeCounter := 2 }
      = (.reused ⟨1, false, false, false, false, some "child1", some "child1-1",
          .int 300, .int 300⟩,
         { childWindows := [("child1-1", ⟨1, false, false, false, false, some "child1",
             some "child1-1", .int 300, .int 300⟩)],
           windowCounter := 2, nativeCounter := 2 }) := by
  refine ⟨by decide, by decide, by decide, by rfl, ?_⟩
  exact (createChildWindow_dedup "child1"
    (.vObj (.fcons "width" (.vNum (.int 300)) (.fcons "height" (.vNum (.int 300)) .fnil)))
    { childWindows := [("child1-1", ⟨1, false, false, false, false, some "child1",
        some "child1-1", .int 300, .int 300⟩)],
      windowCounter := 1, nativeCounter := 2 }
    (by decide) (by decide) (by decide)).1
    ⟨1, false, false, false, false, some "child1", some "child1-1", .int 300, .int 300⟩
    (by rfl) (by rfl)

lemma openChildWindowHandler_of_steps (data : JSValue) (wm : Option WindowManager)
    (msg : String) (h : (openChildWindowSteps data wm).1 = .error msg) :
    (openChildWindowHandler data wm).1
      = { success := false, error := some msg, windowId := none } := by
  unfold openChildWindowHandler
  rcases hs : openChildWindowSteps data wm with ⟨r, wm2⟩
  rw [hs] at h
  rcases r with e | v
  · obtain rfl : e = msg := by simpa using h
    rfl
  · exact absurd h (by simp)

/-- C1 counterexample: the claim asserts that every string `type` outside
child1/child2/child3 yields the enumerated-kinds failure envelope, but the
config lookup is a plain JS property read that walks the prototype chain: the
payload with type "toString" finds the inherited, truthy
`Object.prototype.toString`, passes the falsiness guard, and is rejected only by
the dimension validation inside `createChildWindow` — the handler answers
"Invalid dimensions: undefined", not the enumerated-kinds error. -/
theorem openChildWindowHandler_prototype_key_counterexample :
    (openChildWindowHandler (.vObj (.fcons "type" (.vStr "toString") .fnil))
        (some emptyManager)).1
      = { success := false, error := some "Invalid dimensions: undefined", windowId := none }
  ∧ (openChildWindowHandler (.vObj (.fcons "type" (.vStr "toString") .fnil))
        (some emptyManager)).1
      ≠ { success := false,
          error := some
            "Invalid child window type: toString. Valid types are: child1, child2, child3",
          windowId := none } :=
  ⟨by decide, by decide⟩

/-- C1 (amended). For every payload passed to the `open-child-window` handler of
the Host: a falsy or non-object payload yields the "Invalid request data"
failure envelope; an object whose `type` property is falsy or not a string
yields the "non-empty string" failure envelope; a string `type` that is neither
one of the three kinds nor the name of an `Object.prototype` member yields the
enumerated-kinds failure envelope; a `type` naming an inherited
`Object.prototype` method (such as "toString") instead finds the inherited
function, passes the falsiness guard, and is rejected by the dimension
validation inside `createChildWindow`, so the handler answers
"Invalid dimensions: undefined" — and "__proto__" likewise reaches the
dimension validation with the prototype object, failing with
"Invalid dimensions: " followed by its serialization; the preset table is
exactly child1=300x300, child2=500x300, child3=250x200; a valid kind (with the
manager initialized and no tracked handle whose liveness check throws) delegates
to `createChildWindow` with the preset dimensions and returns
`{success: true, windowId}` with the id of the created-or-reused window; and
every error thrown by the steps is caught and converted to
`{success: false, error}` instead of propagating. -/
theorem openChildWindowHandler_spec :
    (∀ (data : JSValue) (wm : Option WindowManager),
      (¬ data.truthy || data.typeofStr != "object") = true →
        (openChildWindowHandler data wm).1
          = { success := false,
              error := some "Invalid request data: expected object with type property",
              windowId := none })
  ∧ (∀ (data : JSValue) (wm : Option WindowManager),
      data.truthy = true → data.typeofStr = "object" →
      (¬ (getField data "type").truthy || (getField data "type").typeofStr != "string") = true →
        (openChildWindowHandler data wm).1
          = { success := false,
              error := some "Invalid child window type: type must be a non-empty string",
              windowId := none })
  ∧ (∀ (data : JSValue) (wm : Option WindowManager) (t : String),
      data.truthy = true → data.typeofStr = "object" →
      getField data "type" = .vStr t → t ≠ "" →
      t ∉ (["child1", "child2", "child3"] : List String) →
      t ∉ objectProtoKeys → t ≠ "__proto__" →
        (openChildWindowHandler data wm).1
          = { success := false,
              error := some ("Invalid child window type: " ++ t
                ++ ". Valid types are: child1, child2, child3"),
              windowId := none })
  ∧ (CHILD_WINDOW_CONFIGS "child1"
        = some (.vObj (.fcons "width" (.vNum (.int 300)) (.fcons "height" (.vNum (.int 300)) .fnil)))
     ∧ CHILD_WINDOW_CONFIGS "child2"
        = some (.vObj (.fcons "width" (.vNum (.int 500)) (.fcons "height" (.vNum (.int 300)) .fnil)))
     ∧ CHILD_WINDOW_CONFIGS "child3"
        = some (.vObj (.fcons "width" (.vNum (.int 250)) (.fcons "height" (.vNum (.int 200)) .fnil))))
  ∧ (∀ (data : JSValue) (m : WindowManager) (t : String) (dims : JSValue),
      data.truthy = true → data.typeofStr = "object" →
      getField data "type" = .vStr t → t ≠ "" →
      CHILD_WINDOW_CONFIGS t = some dims →
      dimsShapeBad dims = false → dimsNonPositive dims = false →
      (∀ e ∈ m.childWindows, e.2.isDestroyedThrows = false) →
        ∃ (w : BWindow) (m2 : WindowManager),
          (createChildWindow t dims m = (.created w, m2)
            ∨ createChildWindow t dims m = (.reused w, m2))
        ∧ openChildWindowHandler data (some m)
            = ({ success := true, error := none, windowId := some w.nativeId }, some m2))
  ∧ (∀ (data : JSValue) (m : WindowManager) (t : String),
      data.truthy = true → data.typeofStr = "object" →
      getField data "type" = .vStr t → t ∈ objectProtoKeys →
        (openChildWindowHandler data (some m)).1
          = { success := false, error := some "Invalid dimensions: undefined",
              windowId := none })
  ∧ (∀ (data : JSValue) (m : WindowManager),
      data.truthy = true → data.typeofStr = "object" →
      getField data "type" = .vStr "__proto__" →
        (openChildWindowHandler data (some m)).1
          = { success := false,
              error := some ("Invalid dimensions: " ++ jsonStringify (.vObj .fnil)),
              windowId := none })
  ∧ (∀ (data : JSValue) (wm : Option WindowManager) (msg : String),
      (openChildWindowSteps data wm).1 = .error msg →
        (openChildWindowHandler data wm).1
          = { success := false, error := some msg, windowId := none }) := by
  refine ⟨?_, ?_, ?_, ⟨by decide, by decide, by decide⟩, ?_, ?_, ?_,
    openChildWindowHandler_of_steps⟩
  · intro data wm hbad
    have hbad2 : data.truthy = false ∨ ¬ data.typeofStr = "object" := by
      simpa using hbad
    rcases hbad2 with hcase | hcase <;>
      simp [openChildWindowHandler, openChildWindowSteps, hcase]
  · intro data wm htr hobj hbad
    have hbad2 : (getField data "type").truthy = false
        ∨ ¬ (getField data "type").typeofStr = "string" := by
      simpa using hbad
    rcases hbad2 with hcase | hcase <;>
      simp [openChildWindowHandler, openChildWindowSteps, htr, hobj, hcase]
  · intro data wm t htr hobj hfield ht hk1 hk2 hk3
    have h1 : t ≠ "child1" := fun h => hk1 (by simp [h])
    have h2 : t ≠ "child2" := fun h => hk1 (by simp [h])
    have h3 : t ≠ "child3" := fun h => hk1 (by simp [h])
    have hcfg : CHILD_WINDOW_CONFIGS t = none := by
      simp [CHILD_WINDOW_CONFIGS, h1, h2, h3, hk2, hk3]
    simp only [openChildWindowHandler, openChildWindowSteps, htr, hobj, hfield]
    simp [JSValue.truthy, JSValue.typeofStr, JSValue.asString, ht, hcfg]
  · intro data m t dims htr hobj hfield ht hcfg hd hp hthr
    obtain ⟨o, ho⟩ := findWindowByType_ok_of_noThrow t m.childWindows hthr
    rcases o with _ | w
    · have hcc : createChildWindow t dims m
          = constructChildWindow t dims { m with windowCounter := m.windowCounter + 1 } := by
        simp [createChildWindow, ht, hd, hp, ho]
      refine ⟨newChildWindow t dims { m with windowCounter := m.windowCounter + 1 },
        (constructChildWindow t dims { m with windowCounter := m.windowCounter + 1 }).2,
        Or.inl (by rw [hcc]; rfl), ?_⟩
      simp only [openChildWindowHandler, openChildWindowSteps, htr, hobj, hfield]
      simp [JSValue.truthy, JSValue.typeofStr, JSValue.asString, ht, hcfg, hcc,
        constructChildWindow]
    · obtain ⟨h1, h2, _⟩ := findWindowByType_ok_some t m.childWindows w ho
      by_cases hf : w.focusThrows = true
      · have hcc : createChildWindow t dims m
            = constructChildWindow t dims { m with windowCounter := m.windowCounter + 1 } := by
          simp [createChildWindow, ht, hd, hp, ho, h1, h2, hf]
        refine ⟨newChildWindow t dims { m with windowCounter := m.windowCounter + 1 },
          (constructChildWindow t dims { m with windowCounter := m.windowCounter + 1 }).2,
          Or.inl (by rw [hcc]; rfl), ?_⟩
        simp only [openChildWindowHandler, openChildWindowSteps, htr, hobj, hfield]
        simp [JSValue.truthy, JSValue.typeofStr, JSValue.asString, ht, hcfg, hcc,
          constructChildWindow]
      · have hcc : createChildWindow t dims m
            = (.reused w, { m with windowCounter := m.windowCounter + 1 }) := by
          simp [createChildWindow, ht, hd, hp, ho, h1, h2, hf]
        refine ⟨w, { m with windowCounter := m.windowCounter + 1 }, Or.inr hcc, ?_⟩
        simp only [openChildWindowHandler, openChildWindowSteps, htr, hobj, hfield]
        simp [JSValue.truthy, JSValue.typeofStr, JSValue.asString, ht, hcfg, hcc]
  · intro data m t htr hobj hfield hmem
    have ht : t ≠ "" := by
      intro h
      subst h
      simp [objectProtoKeys] at hmem
    have h1 : t ≠ "child1" := by
      intro h
      subst h
      simp [objectProtoKeys] at hmem
    have h2 : t ≠ "child2" := by
      intro h
      subst h
      simp [objectProtoKeys] at hmem
    have h3 : t ≠ "child3" := by
      intro h
      subst h
      simp [objectProtoKeys] at hmem
    have hcfg : CHILD_WINDOW_CONFIGS t = some (.vFun t) := by
      simp [CHILD_WINDOW_CONFIGS, h1, h2, h3, hmem]
    have hcc : createChildWindow t (.vFun t) m
        = (.threw "Invalid dimensions: undefined",
           { m with windowCounter := m.windowCounter + 1 }) := by
      rw [createChildWindow_shapeBad t (.vFun t) m ht (by rfl)]
      rfl
    simp only [openChildWindowHandler, openChildWindowSteps, htr, hobj, hfield]
    simp [JSValue.truthy, JSValue.typeofStr, JSValue.asString, ht, hcfg, hcc]
  · intro data m htr hobj hfield
    have hcfg : CHILD_WINDOW_CONFIGS "__proto__" = some (.vObj .fnil) := by decide
    have hcc : createChildWindow "__proto__" (.vObj .fnil) m
        = (.threw ("Invalid dimensions: " ++ jsonStringify (.vObj .fnil)),
           { m with windowCounter := m.windowCounter + 1 }) :=
      createChildWindow_shapeBad "__proto__" (.vObj .fnil) m (by decide) (by decide)
    simp only [openChildWindowHandler, openChildWindowSteps, htr, hobj, hfield]
    simp [JSValue.truthy, JSValue.typeofStr, JSValue.asString, hcfg, hcc]

/-- C1 witness: the handler applied to the concrete payload
`{type: "child1"}` with a fresh manager: success with the new window id 1. -/
theorem openChildWindowHandler_spec_witness :
    ((.vObj (.fcons "type" (.vStr "child1") .fnil) : JSValue).truthy = true
      ∧ (.vObj (.fcons "type" (.vStr "child1") .fnil) : JSValue).typeofStr = "object"
      ∧ getField (.vObj (.fcons "type" (.vStr "child1") .fnil)) "type" = .vStr "child1")
  ∧ (openChildWindowHandler (.vObj (.fcons "type" (.vStr "child1") .fnil))
      (some emptyManager)).1.success = true := by
  refine ⟨⟨rfl, rfl, rfl⟩, ?_⟩
  obtain ⟨w, m2, _, hh⟩ := openChildWindowHandler_spec.2.2.2.2.1
    (.vObj (.fcons "type" (.vStr "child1") .fnil)) emptyManager "child1"
    (.vObj (.fcons "width" (.vNum (.int 300)) (.fcons "height" (.vNum (.int 300)) .fnil)))
    rfl rfl rfl (by decide) rfl (by decide) (by decide)
    (by intro e he; simp [emptyManager] at he)
  rw [hh]

/-- The numeric suffixes of the ids assigned to windows actually constructed
(not reused, not thrown) over a sequence of `createChildWindow` calls: on the
construct path the assigned id is `ty-<counter+1>`, so the suffix recorded here
is the post-increment counter value at that call. -/
def createdSuffixes : WindowManager → List (String × JSValue) → List Nat
  | _, [] => []
  | m, c :: rest =>
    match (createChildWindow c.1 c.2 m).1 with
    | .created _ =>
        (m.windowCounter + 1) :: createdSuffixes (createChildWindow c.1 c.2 m).2 rest
    | _ => createdSuffixes (createChildWindow c.1 c.2 m).2 rest

lemma createChildWindow_counter (ty : String) (dims : JSValue) (m : WindowManager) :
    (createChildWindow ty dims m).2.windowCounter = m.windowCounter + 1 := by
  simp only [createChildWindow, constructChildWindow]
  repeat' split
  all_goals rfl

lemma createChildWindow_created_eq (ty : String) (dims : JSValue) (m : WindowManager)
    (w : BWindow) (h : (createChildWindow ty dims m).1 = .created w) :
    w = newChildWindow ty dims { m with windowCounter := m.windowCounter + 1 } := by
  simp only [createChildWindow, constructChildWindow] at h
  repeat' split at h
  all_goals simp_all

lemma createdSuffixes_gt (calls : List (String × JSValue)) :
    ∀ (m : WindowManager) (x : Nat), x ∈ createdSuffixes m calls → m.windowCounter < x := by
  induction calls with
  | nil => intro m x hx; simp [createdSuffixes] at hx
  | cons c rest ih =>
    intro m x hx
    have hc := createChildWindow_counter c.1 c.2 m
    simp only [createdSuffixes] at hx
    rcases hr : (createChildWindow c.1 c.2 m).1 with w | w | msg <;> rw [hr] at hx
    · rcases List.mem_cons.mp hx with rfl | hx2
      · omega
      · have := ih _ x hx2
        omega
    · have := ih _ x hx
      omega
    · have := ih _ x hx
      omega

lemma createdSuffixes_pairwise (calls : List (String × JSValue)) :
    ∀ m : WindowManager, List.Pairwise (· < ·) (createdSuffixes m calls) := by
  induction calls with
  | nil => intro m; simp [createdSuffixes]
  | cons c rest ih =>
    intro m
    have hc := createChildWindow_counter c.1 c.2 m
    simp only [createdSuffixes]
    rcases hr : (createChildWindow c.1 c.2 m).1 with w | w | msg
    · refine List.Pairwise.cons ?_ (ih _)
      intro y hy
      have := createdSuffixes_gt rest _ y hy
      omega
    · exact ih _
    · exact ih _

/-- C9. The id counter is incremented exactly once at the start of every
`createChildWindow` call — including calls that fail validation or throw, and
calls that return an existing window via deduplication — so the numeric suffixes
of ids assigned to windows actually constructed are strictly increasing over the
process lifetime and never reused, but not necessarily consecutive (the final
conjunct: a failed call followed by a successful one from a fresh manager yields
the single suffix 2, suffix 1 having been consumed by the failed call). -/
theorem createChildWindow_counter_monotonic :
    (∀ (ty : String) (dims : JSValue) (m : WindowManager),
      (createChildWindow ty dims m).2.windowCounter = m.windowCounter + 1)
  ∧ (∀ (ty : String) (dims : JSValue) (m : WindowManager) (w : BWindow),
      (createChildWindow ty dims m).1 = .created w →
        w.windowId = some (ty ++ "-" ++ toString (m.windowCounter + 1)))
  ∧ (∀ (m : WindowManager) (calls : List (String × JSValue)),
      List.Pairwise (· < ·) (createdSuffixes m calls))
  ∧ createdSuffixes emptyManager
      [("child1", .vObj .fnil),
       ("child1", .vObj (.fcons "width" (.vNum (.int 300))
          (.fcons "height" (.vNum (.int 300)) .fnil)))]
      = [2] := by
  refine ⟨createChildWindow_counter, ?_, fun m calls => createdSuffixes_pairwise calls m, by rfl⟩
  intro ty dims m w h
  rw [createChildWindow_created_eq ty dims m w h]
  rfl

/-- C9 witness: a successful call on a fresh manager constructs a window whose
generated id is `child1-1`, the suffix being the pre-incremented counter. -/
theorem createChildWindow_counter_monotonic_witness :
    (createChildWindow "child1"
        (.vObj (.fcons "width" (.vNum (.int 300)) (.fcons "height" (.vNum (.int 300)) .fnil)))
        emptyManager).1
      = .created (newChildWindow "child1"
          (.vObj (.fcons "width" (.vNum (.int 300)) (.fcons "height" (.vNum (.int 300)) .fnil)))
          { emptyManager with windowCounter := emptyManager.windowCounter + 1 })
  ∧ (newChildWindow "child1"
        (.vObj (.fcons "width" (.vNum (.int 300)) (.fcons "height" (.vNum (.int 300)) .fnil)))
        { emptyManager with windowCounter := emptyManager.windowCounter + 1 }).windowId
      = some ("child1" ++ "-" ++ toString (emptyManager.windowCounter + 1)) :=
  ⟨by rfl,
    createChildWindow_counter_monotonic.2.1 "child1"
      (.vObj (.fcons "width" (.vNum (.int 300)) (.fcons "height" (.vNum (.int 300)) .fnil)))
      emptyManager
      (newChildWindow "child1"
        (.vObj (.fcons "width" (.vNum (.int 300)) (.fcons "height" (.vNum (.int 300)) .fnil)))
        { emptyManager with windowCounter := emptyManager.windowCounter + 1 })
      (by rfl)⟩

/-- C8. For every Retry Controller state: a retry call at or above the cap
returns with the state completely unchanged; every operation preserves the
invariant retryCount ≤ maxRetries (handleError keeps the count, clearError
resets it to 0); a failing retry below the cap leaves retryCount at its
incremented value — not reset — and records the failure through the classifier
with context "retry-operation"; a successful retry and clearError both reset the
state to the initial `{hasError: false, retryCount: 0}`; and with maxRetries =
2, three consecutive failing retries from the initial state leave retryCount at
exactly 2 (the third attempt is refused with no state change). -/
theorem retryController_cap (maxRetries : Nat) (t : String) (op : Except JSValue Unit)
    (st : ErrorState) :
    (st.retryCount ≥ maxRetries → retry maxRetries t op st = st)
  ∧ (st.retryCount ≤ maxRetries → (retry maxRetries t op st).retryCount ≤ maxRetries)
  ∧ (∀ (e : JSValue) (c : Option String) (ts : String),
      (handleError e c ts st).retryCount = st.retryCount)
  ∧ ((clearError st).retryCount = 0)
  ∧ (∀ e : JSValue, st.retryCount < maxRetries →
      retry maxRetries t (.error e) st
        = { hasError := true, error := some (createAppError e t (some "retry-operation")),
            retryCount := st.retryCount + 1, lastRetryAt := some t })
  ∧ (st.retryCount < maxRetries → retry maxRetries t (.ok ()) st = initialErrorState)
  ∧ (clearError st = initialErrorState)
  ∧ (∀ e : JSValue,
      (retry 2 t (.error e)
        (retry 2 t (.error e) (retry 2 t (.error e) initialErrorState))).retryCount = 2
    ∧ retry 2 t (.error e)
        (retry 2 t (.error e) (retry 2 t (.error e) initialErrorState))
        = retry 2 t (.error e) (retry 2 t (.error e) initialErrorState)) := by
  refine ⟨?_, ?_, fun e c ts => rfl, rfl, ?_, ?_, rfl, ?_⟩
  · intro h
    unfold retry
    rw [if_pos h]
  · intro h
    unfold retry
    split_ifs with hge
    · exact h
    · cases op <;> (simp [clearError, initialErrorState, handleError]; try omega)
  · intro e h
    unfold retry
    rw [if_neg (by omega)]
    rfl
  · intro h
    unfold retry
    rw [if_neg (by omega)]
    rfl
  · intro e
    exact ⟨rfl, rfl⟩

/-- C8 witness: the theorem applied at maxRetries = 2 from the initial state with
a failing operation: the first attempt is below the cap and increments the count
to 1 while recording the classified failure. -/
theorem retryController_cap_witness :
    initialErrorState.retryCount < 2
  ∧ retry 2 "ts" (.error .vNull) initialErrorState
      = { hasError := true,
          error := some (createAppError .vNull "ts" (some "retry-operation")),
          retryCount := initialErrorState.retryCount + 1, lastRetryAt := some "ts" } :=
  ⟨by decide,
    (retryController_cap 2 "ts" (.error .vNull) initialErrorState).2.2.2.2.1 .vNull
      (by decide)⟩

/-- C6 counterexample: the claim says a non-success HTTP response fails "with a
generic error carrying that same message" as the recorded errorDetails — but the
source throws `HTTP error! status: <S> - <T>` while errorDetails.message is
`HTTP <S>: <T>`; at status 404 the classified error message is
"HTTP error! status: 404 - Not Found", not "HTTP 404: Not Found". -/
theorem fetchDogImage_http_message_counterexample :
    (fetchDogImage ⟨false, 404, "Not Found", none, .vNull⟩
        "2026-01-01T00:00:00.000Z").errorDetails
      = some ⟨404, "Not Found", "HTTP 404: Not Found"⟩
  ∧ (fetchDogImage ⟨false, 404, "Not Found", none, .vNull⟩
        "2026-01-01T00:00:00.000Z").handled
      = some { code := .vStr "Error",
               message := .vStr "HTTP error! status: 404 - Not Found",
               details := some (.vObj (.fcons "stack" .vUndefined
                 (.fcons "cause" .vUndefined .fnil))),
               timestamp := "2026-01-01T00:00:00.000Z",
               context := some "useDogApi-general" }
  ∧ (JSValue.vStr "HTTP error! status: 404 - Not Found"
      ≠ .vStr "HTTP 404: Not Found") :=
  ⟨by decide, by decide, by decide⟩

/-- C6 (amended). In the Remote Image Fetch Unit: a non-success HTTP response
with status S and status text T sets errorDetails to `{status: S, statusText: T,
message: "HTTP <S>: <T>"}` and fails with a generic error whose message is
`"HTTP error! status: <S> - <T>"` (not the errorDetails message); a non-JSON
content type fails with errorDetails message "Invalid response content type"; a
JSON body whose `message` field is falsy or non-string fails with the exact
classified error message "Invalid response format: missing or invalid message
field"; a body whose `status` field is falsy or non-string fails with "Invalid
response format: missing or invalid status field"; and every failure path sets
the public error flag. (The HTTP conjunct assumes the formatted message does not
itself contain "Failed to fetch", which would reroute the catch classification
to the network branch.) -/
theorem fetchDogImage_validation (r : HttpResponse) (t : String) :
    (r.ok = false →
      containsStr ("HTTP error! status: " ++ toString r.status ++ " - " ++ r.statusText)
        "Failed to fetch" = false →
        (fetchDogImage r t).errorDetails
          = some ⟨r.status, r.statusText, "HTTP " ++ toString r.status ++ ": " ++ r.statusText⟩
      ∧ (fetchDogImage r t).handled
          = some { code := .vStr "Error",
                   message := .vStr ("HTTP error! status: " ++ toString r.status
                     ++ " - " ++ r.statusText),
                   details := some (.vObj (.fcons "stack" .vUndefined
                     (.fcons "cause" .vUndefined .fnil))),
                   timestamp := t, context := some "useDogApi-general" }
      ∧ (fetchDogImage r t).errorFlag = true)
  ∧ (r.ok = true → contentTypeOk r.contentType = false →
        (fetchDogImage r t).errorDetails
          = some ⟨r.status, r.statusText, "Invalid response content type"⟩
      ∧ (fetchDogImage r t).handled
          = some { code := .vStr "Error",
                   message := .vStr "Invalid response content type",
                   details := some (.vObj (.fcons "stack" .vUndefined
                     (.fcons "cause" .vUndefined .fnil))),
                   timestamp := t, context := some "useDogApi-general" }
      ∧ (fetchDogImage r t).errorFlag = true)
  ∧ (r.ok = true → contentTypeOk r.contentType = true →
      r.body.truthy = true → r.body.typeofStr = "object" →
      ((getField r.body "message").truthy = false
        ∨ (getField r.body "message").typeofStr ≠ "string") →
        (fetchDogImage r t).handled
          = some { code := .vStr "Error",
                   message := .vStr "Invalid response format: missing or invalid message field",
                   details := some (.vObj (.fcons "stack" .vUndefined
                     (.fcons "cause" .vUndefined .fnil))),
                   timestamp := t, context := some "useDogApi-general" }
      ∧ (fetchDogImage r t).errorFlag = true)
  ∧ (r.ok = true → contentTypeOk r.contentType = true →
      r.body.truthy = true → r.body.typeofStr = "object" →
      (getField r.body "message").truthy = true →
      (getField r.body "message").typeofStr = "string" →
      ((getField r.body "status").truthy = false
        ∨ (getField r.body "status").typeofStr ≠ "string") →
        (fetchDogImage r t).handled
          = some { code := .vStr "Error",
                   message := .vStr "Invalid response format: missing or invalid status field",
                   details := some (.vObj (.fcons "stack" .vUndefined
                     (.fcons "cause" .vUndefined .fnil))),
                   timestamp := t, context := some "useDogApi-general" }
      ∧ (fetchDogImage r t).errorFlag = true)
  ∧ ((fetchDogImage r t).data = none → (fetchDogImage r t).errorFlag = true) := by
  refine ⟨?_, ?_, ?_, ?_, ?_⟩
  · intro hok hns
    simp [fetchDogImage, fetchCatch, hok, hns, createAppError]
  · intro hok hct
    have hns : containsStr "Invalid response content type" "Failed to fetch" = false := by
      decide
    simp [fetchDogImage, fetchCatch, hok, hct, hns, createAppError]
  · intro hok hct hbt hbo hbad
    have hns : containsStr "Invalid response format: missing or invalid message field"
        "Failed to fetch" = false := by decide
    rcases hbad with hcase | hcase <;>
      simp [fetchDogImage, fetchCatch, hok, hct, hbt, hbo, hcase, hns, createAppError]
  · intro hok hct hbt hbo hmt hms hbad
    have hns : containsStr "Invalid response format: missing or invalid status field"
        "Failed to fetch" = false := by decide
    rcases hbad with hcase | hcase <;>
      simp [fetchDogImage, fetchCatch, hok, hct, hbt, hbo, hmt, hms, hcase, hns, createAppError]
  · intro hdata
    unfold fetchDogImage at hdata ⊢
    split_ifs at hdata ⊢ <;>
      (simp only [fetchCatch]; split_ifs <;> rfl)

/-- C6 witness: the amended theorem applied at a concrete 404 response. -/
theorem fetchDogImage_validation_witness :
    ((⟨false, 404, "Not Found", none, .vNull⟩ : HttpResponse).ok = false
      ∧ containsStr ("HTTP error! status: " ++ toString (404 : Int) ++ " - " ++ "Not Found")
          "Failed to fetch" = false)
  ∧ (fetchDogImage ⟨false, 404, "Not Found", none, .vNull⟩ "ts").errorFlag = true := by
  refine ⟨⟨rfl, by decide⟩, ?_⟩
  exact ((fetchDogImage_validation ⟨false, 404, "Not Found", none, .vNull⟩ "ts").1
    rfl (by decide)).2.2

lemma urlDecode_id (l : List Char) (h : ∀ c ∈ l, c ≠ '+' ∧ c ≠ '%') :
    urlDecode l = l := by
  induction l with
  | nil => rfl
  | cons c rest ih =>
    have hc := h c (by simp)
    have htail := ih (fun x hx => h x (by simp [hx]))
    rw [urlDecode.eq_def]
    simp [hc.1, hc.2, htail]

lemma splitSegs_no_amp (l : List Char) (h : ∀ c ∈ l, c ≠ '&') :
    splitSegs l = [l] := by
  induction l with
  | nil => rfl
  | cons c rest ih =>
    have hc := h c (by simp)
    have htail := ih (fun x hx => h x (by simp [hx]))
    rw [splitSegs.eq_def]
    simp [hc, htail]

/-- C10. The Child-Window Bridge returns the raw value of the `type` query
parameter without validating it against the three known kinds: for any parameter
value (free of the reserved query characters), `getWindowInfo().type` is exactly
that string; the parameter being absent gives null (`none`), and an unreadable
address gives null for `type` together with `url = "unknown"`; a readable address
passes `href` through unchanged; and a value such as "not-a-kind", outside the
kind table, is returned verbatim. -/
theorem getWindowInfo_raw_type (v href t : String)
    (hv : ∀ c ∈ v.data, c ≠ '&' ∧ c ≠ '+' ∧ c ≠ '%') :
    (getWindowInfo (.present ("?type=" ++ v) href) t).type = some v
  ∧ (getWindowInfo (.present "" href) t).type = none
  ∧ getWindowInfo .throws t = { type := none, url := "unknown", timestamp := t }
  ∧ getWindowInfo .absent t = { type := none, url := "unknown", timestamp := t }
  ∧ (href ≠ "" → (getWindowInfo (.present ("?type=" ++ v) href) t).url = href)
  ∧ ((getWindowInfo (.present "?type=not-a-kind" "file:///child.html") t).type
      = some "not-a-kind"
     ∧ "not-a-kind" ∉ (["child1", "child2", "child3"] : List String)
     ∧ CHILD_WINDOW_CONFIGS "not-a-kind" = none) := by
  refine ⟨?_, rfl, rfl, rfl, ?_, rfl, by decide, rfl⟩
  · have hdata : ("?type=" ++ v).data = '?' :: 't' :: 'y' :: 'p' :: 'e' :: '=' :: v.data := by
      rw [String.data_append]
      rfl
    have hseg : splitSegs ('t' :: 'y' :: 'p' :: 'e' :: '=' :: v.data)
        = ['t' :: 'y' :: 'p' :: 'e' :: '=' :: v.data] := by
      apply splitSegs_no_amp
      intro c hc
      simp only [List.mem_cons] at hc
      rcases hc with rfl | rfl | rfl | rfl | rfl | hc
      · decide
      · decide
      · decide
      · decide
      · decide
      · exact (hv c hc).1
    have hdec : urlDecode v.data = v.data :=
      urlDecode_id v.data (fun c hc => ⟨(hv c hc).2.1, (hv c hc).2.2⟩)
    show searchParamsGet ("?type=" ++ v) "type" = some v
    unfold searchParamsGet parseSearchParams
    rw [hdata]
    simp only [stripQm]
    rw [hseg]
    simp [splitPair, urlDecode, hdec, List.find?]
  · intro h
    simp [getWindowInfo, getCurrentUrl, h]

/-- C10 witness: the theorem applied at the concrete parameter value "whatever"
(no reserved characters) and a readable address. -/
theorem getWindowInfo_raw_type_witness :
    (∀ c ∈ ("whatever" : String).data, c ≠ '&' ∧ c ≠ '+' ∧ c ≠ '%')
  ∧ (getWindowInfo (.present ("?type=" ++ "whatever") "file:///x") "ts").type
      = some "whatever" :=
  ⟨by decide,
    (getWindowInfo_raw_type "whatever" "file:///x" "ts" (by decide)).1⟩

/-- C2 counterexample: the claim says a non-finite dimension is rejected before
any window is constructed, but `createChildWindow` only checks `typeof`, `isNaN`
and positivity, and `Infinity <= 0` is false — so `{width: Infinity, height: 300}`
passes validation, a window is constructed with that width, and a tracked entry
is added. -/
theorem createChildWindow_accepts_infinite_width :
    (createChildWindow "child1"
        (.vObj (.fcons "width" (.vNum .posInf) (.fcons "height" (.vNum (.int 300)) .fnil)))
        emptyManager).1
      = .created
          { nativeId := 1, destroyed := false, isDestroyedThrows := false,
            focusThrows := false, closeThrows := false, windowType := some "child1",
            windowId := some "child1-1", width := .posInf, height := .int 300 }
  ∧ (createChildWindow "child1"
        (.vObj (.fcons "width" (.vNum .posInf) (.fcons "height" (.vNum (.int 300)) .fnil)))
        emptyManager).2.childWindows ≠ [] := by
  exact ⟨by decide, by decide⟩

/-- C2 (amended). For every dimensions input to `createChildWindow` (with a
non-empty type, checked first): inputs where width or height is missing,
non-numeric or NaN — the source guard `dimsShapeBad` — are rejected by a thrown
`Invalid dimensions: <json>` error, and inputs where either is not strictly
positive (which rejects `-Infinity` but accepts `Infinity`; finiteness is not
checked) fail with "width and height must be positive numbers"; in both cases
no window is constructed and no tracked entry is added. Concretely,
`{width:0, height:300}` and `{width:300, height:-100}` fail with a message
containing "width and height must be positive numbers", and `{width:NaN,
height:300}` fails with a message containing "Invalid dimensions". -/
theorem createChildWindow_dimension_validation :
    (∀ (ty : String) (dims : JSValue) (m : WindowManager), ty ≠ "" →
      dimsShapeBad dims = true →
        (createChildWindow ty dims m).1 = .threw ("Invalid dimensions: " ++ jsonStringify dims)
      ∧ (createChildWindow ty dims m).2.childWindows = m.childWindows)
  ∧ (∀ (ty : String) (dims : JSValue) (m : WindowManager), ty ≠ "" →
      dimsShapeBad dims = false → dimsNonPositive dims = true →
        (createChildWindow ty dims m).1
          = .threw "Invalid dimensions: width and height must be positive numbers"
      ∧ (createChildWindow ty dims m).2.childWindows = m.childWindows)
  ∧ ((createChildWindow "child1"
        (.vObj (.fcons "width" (.vNum (.int 0)) (.fcons "height" (.vNum (.int 300)) .fnil)))
        emptyManager).1
      = .threw "Invalid dimensions: width and height must be positive numbers"
     ∧ containsStr "Invalid dimensions: width and height must be positive numbers"
        "width and height must be positive numbers" = true)
  ∧ ((createChildWindow "child1"
        (.vObj (.fcons "width" (.vNum (.int 300)) (.fcons "height" (.vNum (.int (-100))) .fnil)))
        emptyManager).1
      = .threw "Invalid dimensions: width and height must be positive numbers")
  ∧ ((createChildWindow "child1"
        (.vObj (.fcons "width" (.vNum .nan) (.fcons "height" (.vNum (.int 300)) .fnil)))
        emptyManager).1
      = .threw ("Invalid dimensions: "
          ++ jsonStringify (.vObj (.fcons "width" (.vNum .nan)
               (.fcons "height" (.vNum (.int 300)) .fnil))))
     ∧ containsStr ("Invalid dimensions: "
          ++ jsonStringify (.vObj (.fcons "width" (.vNum .nan)
               (.fcons "height" (.vNum (.int 300)) .fnil))))
        "Invalid dimensions" = true) := by
  refine ⟨?_, ?_, ⟨by decide, by decide⟩, by decide, ⟨by decide, by decide⟩⟩
  · intro ty dims m hty hd
    rw [createChildWindow_shapeBad ty dims m hty hd]
    exact ⟨rfl, rfl⟩
  · intro ty dims m hty hd hp
    rw [createChildWindow_nonPositive ty dims m hty hd hp]
    exact ⟨rfl, rfl⟩

/-- C2 witness: the amended theorem applied to the concrete input
`{}` (missing width and height), which fails the shape guard. -/
theorem createChildWindow_dimension_validation_witness :
    ("child1" : String) ≠ ""
  ∧ dimsShapeBad (.vObj .fnil) = true
  ∧ ((createChildWindow "child1" (.vObj .fnil) emptyManager).1
      = .threw ("Invalid dimensions: " ++ jsonStringify (.vObj .fnil))
     ∧ (createChildWindow "child1" (.vObj .fnil) emptyManager).2.childWindows
      = emptyManager.childWindows) :=
  ⟨by decide, by decide,
    createChildWindow_dimension_validation.1 "child1" (.vObj .fnil) emptyManager
      (by decide) (by decide)⟩

end MultiWin
